import Mathlib

/-
  Verification of the Loca polling client (custom_components/loca) against its
  natural-language specification.  The Python code is shallowly embedded:
  JSON/Python values become the inductive `PyVal`, Python floats are modelled
  as exact rationals, fallible code returns `Except PyErr`, and the stateful
  API client / coordinator become explicit state-passing functions that also
  emit a trace of observable effects (network requests, session closure,
  repair-issue management).
-/

namespace Loca

/-- Model of a Python/JSON value as it occurs in Loca API payloads.
Python floats are modelled as exact rationals (no claim here depends on
IEEE rounding). -/
inductive PyVal where
  | none
  | bool (b : Bool)
  | int (n : Int)
  | float (q : Rat)
  | str (s : String)
  | list (xs : List PyVal)
  | dict (entries : List (String × PyVal))

/-- Model of a Python exception, carrying the text that `str(err)` yields. -/
inductive PyErr where
  | valueError (msg : String)
  | typeError (msg : String)
  | attributeError (msg : String)
  | osError (msg : String)
  | overflowError (msg : String)

/-- Text of a Python exception, as produced by `str(err)`. -/
def PyErr.text : PyErr → String
  | .valueError m => m
  | .typeError m => m
  | .attributeError m => m
  | .osError m => m
  | .overflowError m => m

/-- Python truthiness (`bool(v)`). -/
def truthy : PyVal → Bool
  | .none => false
  | .bool b => b
  | .int n => n != 0
  | .float q => q != 0
  | .str s => s != ""
  | .list xs => !xs.isEmpty
  | .dict d => !d.isEmpty

/-- Whether a value is a Python dict (`isinstance(v, dict)`). -/
def isDict : PyVal → Bool
  | .dict _ => true
  | _ => false

/-- Whether a value is a Python list (`isinstance(v, list)`). -/
def isList : PyVal → Bool
  | .list _ => true
  | _ => false

/-- Whether a value is a Python str. -/
def isStr : PyVal → Bool
  | .str _ => true
  | _ => false

/-- First-match association-list lookup, modelling Python dict indexing
(the dicts arriving here come from JSON parsing, so keys are unique). -/
def dictLookup : List (String × PyVal) → String → Option PyVal
  | [], _ => Option.none
  | (k, v) :: rest, key => if k = key then some v else dictLookup rest key

/-- Model of `v.get(key, default)`: an `AttributeError` when `v` is not a
dict, the stored or default value otherwise. -/
def pyGet (v : PyVal) (key : String) (dflt : PyVal) : Except PyErr PyVal :=
  match v with
  | .dict entries => .ok ((dictLookup entries key).getD dflt)
  | _ => .error (.attributeError ("object has no attribute 'get'"))

/-- Model of `v.get(key)` (default `None`). -/
def pyGetOpt (v : PyVal) (key : String) : Except PyErr PyVal :=
  pyGet v key .none

/-- Truncation of a rational toward zero, matching Python `int(float)`. -/
def ratTrunc (q : Rat) : Int :=
  q.num.sign * ((q.num.natAbs / q.den : Nat) : Int)

/-- Digits of a character list read as a natural number, `Option.none` if the
list is empty or holds a non-digit. -/
def digitsToNat : List Char → Option Nat
  | [] => Option.none
  | cs =>
    if cs.all Char.isDigit then
      some (cs.foldl (fun acc c => acc * 10 + (c.toNat - '0'.toNat)) 0)
    else Option.none

/-- Split a character list at the first occurrence of a separator. -/
def splitAtChar (sep : Char) : List Char → List Char × Option (List Char)
  | [] => ([], Option.none)
  | c :: rest =>
    if c = sep then ([], some rest)
    else
      let (pre, post) := splitAtChar sep rest
      (c :: pre, post)

/-- Parse an optional leading sign, returning the sign and the remainder. -/
def parseSign : List Char → Bool × List Char
  | '-' :: rest => (true, rest)
  | '+' :: rest => (false, rest)
  | cs => (false, cs)

/-- Lower-casing of a string character by character, modelling Python
`str.lower` on the ASCII texts that occur here. -/
def strLower (s : String) : String :=
  String.mk (s.toList.map Char.toLower)

/-- Whitespace trimming on both ends of a character list, modelling the
stripping Python's numeric constructors apply. -/
def trimChars (cs : List Char) : List Char :=
  ((cs.dropWhile Char.isWhitespace).reverse.dropWhile Char.isWhitespace).reverse

/-- Model of Python `int(str)`: optional sign followed by one or more digits
(surrounding whitespace stripped). -/
def pyParseInt (s : String) : Option Int :=
  let (neg, cs) := parseSign (trimChars s.toList)
  match digitsToNat cs with
  | some n => some (if neg then -(n : Int) else (n : Int))
  | Option.none => Option.none

/-- Parse an unsigned decimal of the shape `digits`, `digits.digits`,
`digits.`, or `.digits` into an exact rational. -/
def parseUnsignedDecimal (cs : List Char) : Option Rat :=
  let (intPart, fracPart) := splitAtChar '.' cs
  match fracPart with
  | Option.none =>
    match digitsToNat intPart with
    | some n => some (n : Rat)
    | Option.none => Option.none
  | some frac =>
    if intPart.isEmpty ∧ frac.isEmpty then Option.none
    else if (intPart.all Char.isDigit) ∧ (frac.all Char.isDigit) then
      let ip : Nat := (digitsToNat intPart).getD 0
      let fp : Nat := (digitsToNat frac).getD 0
      some ((ip : Rat) + (fp : Rat) / ((10 : Rat) ^ frac.length))
    else Option.none

/-- Model of Python `float(str)`: optional sign, decimal, optional exponent
(surrounding whitespace stripped; `inf`/`nan` forms are out of scope for the
payloads considered here). -/
def pyParseFloat (s : String) : Option Rat :=
  let (neg, cs) := parseSign (trimChars s.toList)
  let (mantissa, expPart) :=
    match splitAtChar 'e' cs with
    | (pre, some post) => (pre, some post)
    | (_, Option.none) => splitAtChar 'E' cs
  let applyExp (q : Rat) : Option Rat :=
    match expPart with
    | Option.none => some q
    | some ecs =>
      let (eneg, ecs) := parseSign ecs
      match digitsToNat ecs with
      | some e => some (if eneg then q / ((10 : Rat) ^ e) else q * ((10 : Rat) ^ e))
      | Option.none => Option.none
  match parseUnsignedDecimal mantissa with
  | some q =>
    match applyExp q with
    | some r => some (if neg then -r else r)
    | Option.none => Option.none
  | Option.none => Option.none

/-- Model of Python `float(v)`. -/
def pyFloat : PyVal → Except PyErr Rat
  | .bool b => .ok (if b then 1 else 0)
  | .int n => .ok (n : Rat)
  | .float q => .ok q
  | .str s =>
    match pyParseFloat s with
    | some q => .ok q
    | Option.none => .error (.valueError ("could not convert string to float: " ++ s))
  | .none => .error (.typeError "float() argument must be a string or a real number, not 'NoneType'")
  | .list _ => .error (.typeError "float() argument must be a string or a real number, not 'list'")
  | .dict _ => .error (.typeError "float() argument must be a string or a real number, not 'dict'")

/-- Model of Python `int(v)` (truncating floats toward zero). -/
def pyInt : PyVal → Except PyErr Int
  | .bool b => .ok (if b then 1 else 0)
  | .int n => .ok n
  | .float q => .ok (ratTrunc q)
  | .str s =>
    match pyParseInt s with
    | some n => .ok n
    | Option.none => .error (.valueError ("invalid literal for int() with base 10: " ++ s))
  | .none => .error (.typeError "int() argument must be a string or a number, not 'NoneType'")
  | .list _ => .error (.typeError "int() argument must be a string or a number, not 'list'")
  | .dict _ => .error (.typeError "int() argument must be a string or a number, not 'dict'")

/-- Model of Python `str(v)` for the scalar values that reach it here
(float/list/dict renderings are schematic; no claim inspects them). -/
def pyStr : PyVal → String
  | .none => "None"
  | .bool b => if b then "True" else "False"
  | .int n => toString n
  | .float q => toString q
  | .str s => s
  | .list _ => "[...]"
  | .dict _ => "{...}"

/-- Python `==` restricted to the comparisons the code performs: numeric
values compare by value across int/float/bool, strings by content, `None`
only to `None`; cross-kind and container comparisons yield `False` (deep
container equality never arises in the embedded code). -/
def pyEq (a b : PyVal) : Bool :=
  match a, b with
  | .int m, .int n => m == n
  | .int m, .float q => (m : Rat) == q
  | .float q, .int n => q == (n : Rat)
  | .float p, .float q => p == q
  | .bool x, .int n => (if x then (1 : Int) else 0) == n
  | .int n, .bool x => n == (if x then (1 : Int) else 0)
  | .bool x, .float q => (if x then (1 : Rat) else 0) == q
  | .float q, .bool x => q == (if x then (1 : Rat) else 0)
  | .bool x, .bool y => x == y
  | .str s, .str t => s == t
  | .none, .none => true
  | _, _ => false

/-- Boolean substring test: `needle` occurs contiguously inside `hay`
(models Python `needle in hay` on strings). -/
def containsSub (hay needle : String) : Bool :=
  hay.toList.tails.any (fun t => needle.toList.isPrefixOf t)

/-- Whether every character of a string is an ASCII digit and the string is
nonempty (models Python `str.isdigit` for the key names that occur). -/
def strIsDigit (s : String) : Bool :=
  !s.isEmpty && s.toList.all Char.isDigit

/-! ## API client state (`LocaAPI.__init__`, `_get_session`) -/

/-- Provenance of the aiohttp session held in `LocaAPI._session`. -/
inductive SessionKind where
  | external
  | hassShared
  | selfCreated
  deriving DecidableEq

/-- State of one `LocaAPI` instance: credentials fixed at construction, the
optional Home Assistant handle, the current session with its provenance,
the `_authenticated` flag and the `_groups_cache`. -/
structure ApiState where
  api_key : String
  username : String
  password : String
  hass : Bool
  session : Option SessionKind
  authenticated : Bool
  groups_cache : List (Int × PyVal)

/-- Observable effects of the embedded code: network requests, session
closure, and the coordinator's repair-issue management.  `authInvoke` marks
an invocation of `authenticate` (before any network activity). -/
inductive Ev where
  | authInvoke
  | connGet
  | loginPost
  | logoutPost
  | assetsPost
  | locationsPost
  | statusPost
  | groupsPost
  | sessionClose
  | createAuthIssue
  | createNoDevicesIssue
  | deleteIssues
  deriving DecidableEq

/-- Which events are outgoing network requests. -/
def Ev.isNetwork : Ev → Bool
  | .connGet => true
  | .loginPost => true
  | .logoutPost => true
  | .assetsPost => true
  | .locationsPost => true
  | .statusPost => true
  | .groupsPost => true
  | _ => false

/-- Which events are resource fetches (the POSTs of the four fetchers). -/
def Ev.isResourcePost : Ev → Bool
  | .assetsPost => true
  | .locationsPost => true
  | .statusPost => true
  | .groupsPost => true
  | _ => false

/-- Model of `LocaAPI._get_session`: reuse the stored session, otherwise
obtain the Home Assistant shared session when a `hass` handle is present,
else create a standalone session. -/
def getSession (st : ApiState) : ApiState :=
  match st.session with
  | some _ => st
  | Option.none =>
    { st with session := some (if st.hass then SessionKind.hassShared else SessionKind.selfCreated) }

/-! ## HTTP environment

Network behaviour is a parameter: each request either raises (connection
error, timeout, ...) or yields a status code with a body that either parses
as JSON or makes `response.json()` raise. -/

/-- Body of an HTTP response as seen through `response.json()`. -/
inductive HttpBody where
  | json (v : PyVal)
  | notJson (text : String)

/-- Result of issuing one HTTP request. -/
inductive HttpResult where
  | exc (e : PyErr)
  | resp (status : Int) (body : HttpBody)

/-- Environment for one `authenticate` call: the outcome of the best-effort
connectivity probe (its exceptions are caught and only logged) and of the
login POST. -/
structure AuthEnv where
  connectivity : HttpResult
  login : HttpResult

/-- Environment for one fetcher call: an `AuthEnv` for the lazy
authentication attempt plus the outcome of the resource POST. -/
structure FetchEnv where
  auth : AuthEnv
  request : HttpResult

/-! ## `LocaAPI.authenticate` -/

/-- Success test applied to the parsed login body: Python
`data.get("user") and isinstance(data.get("user"), dict)`; a non-dict body
makes `data.get` raise, which the surrounding handler turns into `False`. -/
def loginBodySuccess (data : PyVal) : Bool :=
  match data with
  | .dict d =>
    match dictLookup d "user" with
    | some u => truthy u && isDict u
    | Option.none => false
  | _ => false

/-- Model of `LocaAPI.authenticate`: returns the boolean result, the new
state, and the trace of events.  Empty credentials fail before any network
call; otherwise the connectivity probe and login POST are issued, and only
an HTTP 200 JSON body passing `loginBodySuccess` sets `_authenticated`. -/
def authenticate (st : ApiState) (env : AuthEnv) : Bool × ApiState × List Ev :=
  if st.api_key = "" ∨ st.username = "" ∨ st.password = "" then
    (false, st, [Ev.authInvoke])
  else
    let st := getSession st
    let tr := [Ev.authInvoke, Ev.connGet, Ev.loginPost]
    match env.login with
    | .exc _ => (false, st, tr)
    | .resp status body =>
      if status = 200 then
        match body with
        | .notJson _ => (false, st, tr)
        | .json data =>
          if loginBodySuccess data then (true, { st with authenticated := true }, tr)
          else (false, st, tr)
      else (false, st, tr)

/-! ## Response-shape resolution of the four fetchers

Each fetcher's HTTP-200 branch resolves one of several historically seen
response shapes; unresolved shapes fall through to error-message extraction
and an empty list.  The resolution functions below return the payload that
the Python function returns (always a `PyVal.list` for the shapes that can
occur; fallback branches that would return a raw truthy payload return it
unchanged). -/

/-- Shape resolution of `get_assets` (direct array, `assets` key, dict of
asset-like keys, else empty). -/
def assetsFromResponse (data : PyVal) : PyVal :=
  match data with
  | .list xs => .list xs
  | .dict d =>
    if (dictLookup d "assets").isSome then
      (dictLookup d "assets").getD (.list [])
    else if d.any (fun p => strIsDigit p.1 || containsSub (strLower p.1) "asset") then
      if d.all (fun p => isDict p.2) then .list (d.map (fun p => p.2)) else .list []
    else .list []
  | _ => .list []

/-- Shape resolution of `get_user_locations` (direct array,
`response.UserLocationList`, wrapped `status: ok`, direct `locations` key,
else empty). -/
def locationsFromResponse (data : PyVal) : PyVal :=
  match data with
  | .list xs => .list xs
  | .dict d =>
    let respVal := (dictLookup d "response").getD .none
    let nested : Option PyVal :=
      if truthy respVal && isDict respVal then
        match respVal with
        | .dict ro =>
          match dictLookup ro "UserLocationList" with
          | some (.list ls) => some (.list ls)
          | _ => Option.none
        | _ => Option.none
      else Option.none
    match nested with
    | some v => v
    | Option.none =>
      if pyEq ((dictLookup d "status").getD .none) (.str "ok")
          && truthy ((dictLookup d "locations").getD .none) then
        (dictLookup d "locations").getD (.list [])
      else if truthy ((dictLookup d "locations").getD .none)
          && isList ((dictLookup d "locations").getD .none) then
        (dictLookup d "locations").getD (.list [])
      else .list []
  | _ => .list []

/-- Shape resolution of `get_status_list` (direct array, `StatusList` key,
wrapped `status: ok` with `devices`, direct `devices` key, else empty). -/
def statusListFromResponse (data : PyVal) : PyVal :=
  match data with
  | .list xs => .list xs
  | .dict d =>
    match dictLookup d "StatusList" with
    | some (.list ls) => .list ls
    | _ =>
      if pyEq ((dictLookup d "status").getD .none) (.str "ok")
          && truthy ((dictLookup d "devices").getD .none) then
        (dictLookup d "devices").getD (.list [])
      else if truthy ((dictLookup d "devices").getD .none)
          && isList ((dictLookup d "devices").getD .none) then
        (dictLookup d "devices").getD (.list [])
      else .list []
  | _ => .list []

/-- Shape resolution of `get_groups` (`groups` key holding a list, direct
array, else empty). -/
def groupsFromResponse (data : PyVal) : PyVal :=
  match data with
  | .dict d =>
    match dictLookup d "groups" with
    | some (.list gs) => .list gs
    | _ => .list []
  | .list xs => .list xs
  | _ => .list []

/-- Shared fetcher skeleton: lazy authentication (returning `[]` when it
fails), then one resource POST whose HTTP-200 JSON body goes through the
given shape resolution; every other outcome yields `[]`. -/
def runFetcher (shape : PyVal → PyVal) (postEv : Ev)
    (st : ApiState) (env : FetchEnv) : PyVal × ApiState × List Ev :=
  let (authOk, st, tr) :=
    if st.authenticated then (true, st, ([] : List Ev))
    else authenticate st env.auth
  if !authOk then (.list [], st, tr)
  else
    let st := getSession st
    let tr := tr ++ [postEv]
    match env.request with
    | .exc _ => (.list [], st, tr)
    | .resp status body =>
      if status = 200 then
        match body with
        | .notJson _ => (.list [], st, tr)
        | .json data => (shape data, st, tr)
      else (.list [], st, tr)

/-- Model of `LocaAPI.get_assets`. -/
def get_assets (st : ApiState) (env : FetchEnv) : PyVal × ApiState × List Ev :=
  runFetcher assetsFromResponse Ev.assetsPost st env

/-- Model of `LocaAPI.get_user_locations`. -/
def get_user_locations (st : ApiState) (env : FetchEnv) : PyVal × ApiState × List Ev :=
  runFetcher locationsFromResponse Ev.locationsPost st env

/-- Model of `LocaAPI.get_status_list`. -/
def get_status_list (st : ApiState) (env : FetchEnv) : PyVal × ApiState × List Ev :=
  runFetcher statusListFromResponse Ev.statusPost st env

/-- Model of `LocaAPI.get_groups`. -/
def get_groups (st : ApiState) (env : FetchEnv) : PyVal × ApiState × List Ev :=
  runFetcher groupsFromResponse Ev.groupsPost st env

/-! ## Group cache (`update_groups_cache`, `get_group_name`) -/

/-- Dict-style insert into the cache: overwrite an existing key in place,
append otherwise. -/
def cacheInsert (c : List (Int × PyVal)) (k : Int) (v : PyVal) : List (Int × PyVal) :=
  if c.any (fun p => p.1 = k) then
    c.map (fun p => if p.1 = k then (k, v) else p)
  else c ++ [(k, v)]

/-- Cache lookup (`dict.get` on the groups cache). -/
def cacheLookup : List (Int × PyVal) → Int → Option PyVal
  | [], _ => Option.none
  | (k, v) :: rest, key => if k = key then some v else cacheLookup rest key

/-- One iteration of the `update_groups_cache` loop: read `id` and `label`
(label defaulting to `""`), skip the entry when `id` is `None`, otherwise
store under `int(id)`. -/
def groupStep (cache : List (Int × PyVal)) (g : PyVal) : Except PyErr (List (Int × PyVal)) := do
  let gid ← pyGetOpt g "id"
  let glabel ← pyGet g "label" (.str "")
  match gid with
  | .none => pure cache
  | v => do
    let i ← pyInt v
    pure (cacheInsert cache i glabel)

/-- Run the `update_groups_cache` loop over the fetched groups, starting
from the cleared cache; an exception stops the loop leaving the entries
inserted so far (Python semantics of an uncaught error mid-loop). -/
def fillCache : List PyVal → List (Int × PyVal) → List (Int × PyVal) × Option PyErr
  | [], c => (c, Option.none)
  | g :: gs, c =>
    match groupStep c g with
    | .ok c' => fillCache gs c'
    | .error e => (c, some e)

/-- Model of `LocaAPI.update_groups_cache`: fetch groups, clear the cache,
repopulate from the fetch; an exception raised while repopulating
propagates (reported in the `Option PyErr` component). -/
def update_groups_cache (st : ApiState) (env : FetchEnv) :
    ApiState × Option PyErr × List Ev :=
  let (groups, st, tr) := get_groups st env
  match groups with
  | .list gs =>
    let (c, e) := fillCache gs []
    ({ st with groups_cache := c }, e, tr)
  | _ =>
    ({ st with groups_cache := [] }, some (.typeError "object is not iterable"), tr)

/-- Model of `LocaAPI.get_group_name`: `None` maps to `""`, otherwise the
cache is consulted under `int(group_id)` with default `""`.  A pure read:
no state is touched and no fetch is issued. -/
def get_group_name (group_id : PyVal) (cache : List (Int × PyVal)) : Except PyErr PyVal :=
  match group_id with
  | .none => .ok (.str "")
  | v => do
    let i ← pyInt v
    pure ((cacheLookup cache i).getD (.str ""))

/-! ## `LocaAPI.logout` and `LocaAPI.close` -/

/-- Test for a `status: ok` body (used by `logout`); a non-dict body makes
`data.get` raise inside the handler, yielding `False`. -/
def statusOkBody (data : PyVal) : Bool :=
  match data with
  | .dict d => pyEq ((dictLookup d "status").getD .none) (.str "ok")
  | _ => false

/-- Model of `LocaAPI.logout`: a no-op success when not authenticated;
otherwise one logout POST, flipping `_authenticated` off only on a 200
`status: ok` body; every failure returns `false` without raising. -/
def logout (st : ApiState) (env : HttpResult) : Bool × ApiState × List Ev :=
  if !st.authenticated then (true, st, [])
  else
    let st := getSession st
    let tr := [Ev.logoutPost]
    match env with
    | .exc _ => (false, st, tr)
    | .resp status body =>
      if status = 200 then
        match body with
        | .notJson _ => (false, st, tr)
        | .json data =>
          if statusOkBody data then (true, { st with authenticated := false }, tr)
          else (false, st, tr)
      else (false, st, tr)

/-- Model of `LocaAPI.close`: logout first when authenticated, then close
the held session exactly when one exists and no `hass` handle was supplied
(`if self._session and not self._hass`), and finally force
`_authenticated` to `false`. -/
def close (st : ApiState) (env : HttpResult) : ApiState × List Ev :=
  let r := if st.authenticated then logout st env else (true, st, [])
  let st := r.2.1
  let tr := r.2.2
  let r2 :=
    if st.session.isSome && !st.hass then
      ({ st with session := Option.none }, tr ++ [Ev.sessionClose])
    else (st, tr)
  ({ r2.1 with authenticated := false }, r2.2)

/-! ## Record normalizers (`parse_status_as_device`, `parse_location_as_device`) -/

/-- The `asset_info` block of a normalized status record. -/
structure AssetInfo where
  brand : PyVal
  model : PyVal
  serial : PyVal
  type : PyVal
  group_id : PyVal
  group_name : PyVal

/-- The `address_details` block of a normalized status record. -/
structure AddressDetails where
  street : PyVal
  number : PyVal
  city : PyVal
  district : PyVal
  region : PyVal
  state : PyVal
  zipcode : PyVal
  country : PyVal

/-- The device snapshot built by `parse_status_as_device`. -/
structure StatusDevice where
  device_id : String
  name : PyVal
  latitude : Rat
  longitude : Rat
  battery_level : Option Int
  gps_accuracy : Int
  last_seen : Option Int
  location_source : String
  address : Option String
  location_label : Option PyVal
  speed : Rat
  satellites : Int
  signal_strength : Int
  asset_info : AssetInfo
  location_update : PyVal
  address_details : AddressDetails
  attributes : List (String × PyVal)

/-- The `Asset` sub-object of a status entry, defaulting to an empty dict. -/
def assetOf (entry : List (String × PyVal)) : PyVal :=
  (dictLookup entry "Asset").getD (.dict [])

/-- The `History` sub-object of a status entry, defaulting to an empty dict. -/
def historyOf (entry : List (String × PyVal)) : PyVal :=
  (dictLookup entry "History").getD (.dict [])

/-- The `Spot` sub-object of a status entry, defaulting to an empty dict. -/
def spotOf (entry : List (String × PyVal)) : PyVal :=
  (dictLookup entry "Spot").getD (.dict [])

/-- Join of Python values with a separator, as `sep.join(xs)`: every item
must be a `str`, otherwise a `TypeError` is raised. -/
def joinPy (sep : String) (xs : List PyVal) : Except PyErr String :=
  if xs.all isStr then
    .ok (String.intercalate sep (xs.map (fun v => match v with | .str s => s | _ => "")))
  else .error (.typeError "sequence item: expected str instance")

/-- The street/number address segment: both truthy yields the f-string
`"{street} {number}"` (always a `str`), street alone yields the raw street
value, otherwise the segment is omitted. -/
def streetSegment (d : List (String × PyVal)) : Option PyVal :=
  let street := (dictLookup d "street").getD .none
  let number := (dictLookup d "number").getD .none
  if truthy street && truthy number then
    some (.str (pyStr street ++ " " ++ pyStr number))
  else if truthy street then some street
  else Option.none

/-- The zipcode/city address segment: the truthy fields among zipcode and
city joined by one space (a join that raises on non-str items), omitted
when both are falsy. -/
def zipCitySegment (d : List (String × PyVal)) : Except PyErr (Option PyVal) :=
  let zipcode := (dictLookup d "zipcode").getD .none
  let city := (dictLookup d "city").getD .none
  let zc := (if truthy zipcode then [zipcode] else []) ++ (if truthy city then [city] else [])
  if zc.isEmpty then .ok Option.none
  else do
    let s ← joinPy " " zc
    pure (some (.str s))

/-- The country address segment: the raw country value when truthy. -/
def countrySegment (d : List (String × PyVal)) : Option PyVal :=
  let country := (dictLookup d "country").getD .none
  if truthy country then some country else Option.none

/-- Address assembly over one dict of place fields: the three segments in
order, absent segments dropped, joined by `", "`; an empty segment list
yields `None` rather than an empty string. -/
def buildAddressFromDict (d : List (String × PyVal)) : Except PyErr (Option String) := do
  let zcSeg ← zipCitySegment d
  let parts := (streetSegment d).toList ++ zcSeg.toList ++ (countrySegment d).toList
  if parts.isEmpty then pure Option.none
  else do
    let s ← joinPy ", " parts
    pure (some s)

/-- Address assembly of `parse_status_as_device`: guarded by the truthiness
of the Spot value (`if spot:`); a truthy non-dict Spot raises when its
fields are read. -/
def buildSpotAddress (spot : PyVal) : Except PyErr (Option String) :=
  if truthy spot then
    match spot with
    | .dict d => buildAddressFromDict d
    | _ => .error (.attributeError "object has no attribute 'get'")
  else .ok Option.none

/-- The battery field: `int(float(charge))` when the charge value read
with default `None` is not `None`, else `None`. -/
def batteryStep (chargeV : PyVal) : Except PyErr (Option Int) :=
  match chargeV with
  | .none => pure Option.none
  | v => do
    let q ← pyFloat v
    pure (some (ratTrunc q))

/-- The origin read: `spot.get("origin", 1) if spot else 1`. -/
def originStep (spot : PyVal) : Except PyErr PyVal :=
  if truthy spot then pyGet spot "origin" (.int 1) else pure (.int 1)

/-- The location label: `spot["label"] if spot and spot.get("label") else
None`. -/
def labelStep (spot : PyVal) : Except PyErr (Option PyVal) :=
  if truthy spot then do
    let l ← pyGetOpt spot "label"
    pure (if truthy l then some l else Option.none)
  else pure Option.none

/-- One `address_details` field: `spot.get(key, "") if spot else ""`. -/
def detailStep (spot : PyVal) (key : String) : Except PyErr PyVal :=
  if truthy spot then pyGet spot key (.str "") else pure (PyVal.str "")

/-- The `gps_accuracy` output field: `int(gps_accuracy) if gps_accuracy
else 100` applied to the value read with default `1` from `HDOP`. -/
def gpsAccuracyOut (hdop : PyVal) : Except PyErr Int :=
  if truthy hdop then pyInt hdop else pure 100

/-- An int-with-falsy-default output field (`int(v) if v else 0`), used for
satellites and signal strength. -/
def intOrZero (v : PyVal) : Except PyErr Int :=
  if truthy v then pyInt v else pure 0

/-- Model of `datetime.fromtimestamp(n, tz=timezone.utc)` on CPython 3.11
with 64-bit `time_t` (the platform this integration runs on), measured on
the interpreter: timestamps of years 1-9999
(`-62135596800 ≤ n ≤ 253402300799`) convert (the converted value is
modelled as the epoch integer itself); timestamps whose year still fits a
C `int` raise `ValueError` ("year out of range"); the rest of the 64-bit
`time_t` range raises `OSError` (`gmtime` failure); values outside 64-bit
`time_t` raise `OverflowError`.  Only the `ValueError` is in the catch at
`api.py:464`; the other two propagate. -/
def pyFromTimestamp (n : Int) : Except PyErr Int :=
  if -62135596800 ≤ n ∧ n ≤ 253402300799 then .ok n
  else if -67768040609740800 ≤ n ∧ n ≤ 67768036191676799 then
    .error (.valueError "year is out of range")
  else if -(2 ^ 63) ≤ n ∧ n < 2 ^ 63 then
    .error (.osError "Value too large for defined data type")
  else .error (.overflowError "timestamp out of range for platform time_t")

/-- The `last_seen` field of a status record: a truthy `time` value is
passed through `int(...)` and `datetime.fromtimestamp`; only
`ValueError`/`TypeError` are caught and degrade to `None` — the
`OSError`/`OverflowError` that `fromtimestamp` raises on out-of-range
timestamps propagate. -/
def lastSeenFromTime (timeV : PyVal) : Except PyErr (Option Int) :=
  if truthy timeV then
    match (do
      let n ← pyInt timeV
      pyFromTimestamp n : Except PyErr Int) with
    | .ok t => .ok (some t)
    | .error (.valueError _) => .ok Option.none
    | .error (.typeError _) => .ok Option.none
    | .error e => .error e
  else .ok Option.none

/-- Model of `LocaAPI.parse_status_as_device`, faithful to the field reads,
coercions, defaults and exception behaviour of the source; the only
deliberate abstractions are exact-rational floats and an epoch-integer
representation of the parsed timestamp. -/
def parse_status_as_device (cache : List (Int × PyVal))
    (status_entry : List (String × PyVal)) : Except PyErr StatusDevice := do
  let asset := assetOf status_entry
  let history := historyOf status_entry
  let spot := spotOf status_entry
  let idv ← pyGet asset "id" (.str "")
  let device_id := pyStr idv
  let name ← pyGet asset "label" (.str ("Loca Device " ++ device_id))
  let latV ← pyGet history "latitude" (.int 0)
  let latitude ← pyFloat latV
  let lonV ← pyGet history "longitude" (.int 0)
  let longitude ← pyFloat lonV
  let timeV ← pyGet history "time" (.int 0)
  let last_seen ← lastSeenFromTime timeV
  let chargeV ← pyGetOpt history "charge"
  let battery_level ← batteryStep chargeV
  let hdop ← pyGet history "HDOP" (.int 1)
  let satV ← pyGet history "SATU" (.int 0)
  let sigV ← pyGet history "strength" (.int 0)
  let speedV ← pyGet history "speed" (.float 0)
  let originV ← originStep spot
  let location_source := if pyEq originV (.int 1) then "GPS" else "Cell Tower"
  let address ← buildSpotAddress spot
  let location_label ← labelStep spot
  let gps_accuracy ← gpsAccuracyOut hdop
  let speed ← pyFloat speedV
  let satellites ← intOrZero satV
  let signal_strength ← intOrZero sigV
  let brand ← pyGet asset "brand" (.str "")
  let model ← pyGet asset "model" (.str "")
  let serial ← pyGet asset "serial" (.str "")
  let typeV ← pyGet asset "type" (.int 0)
  let groupDefault ← pyGet asset "group" (.int 0)
  let groupV ← pyGetOpt asset "group"
  let group_name ← get_group_name groupV cache
  let location_update ← pyGet asset "locationupdate" (.dict [])
  let dStreet ← detailStep spot "street"
  let dNumber ← detailStep spot "number"
  let dCity ← detailStep spot "city"
  let dDistrict ← detailStep spot "district"
  let dRegion ← detailStep spot "region"
  let dState ← detailStep spot "state"
  let dZipcode ← detailStep spot "zipcode"
  let dCountry ← detailStep spot "country"
  pure {
    device_id := device_id
    name := name
    latitude := latitude
    longitude := longitude
    battery_level := battery_level
    gps_accuracy := gps_accuracy
    last_seen := last_seen
    location_source := location_source
    address := address
    location_label := location_label
    speed := speed
    satellites := satellites
    signal_strength := signal_strength
    asset_info := {
      brand := brand, model := model, serial := serial, type := typeV,
      group_id := groupDefault, group_name := group_name }
    location_update := location_update
    address_details := {
      street := dStreet, number := dNumber, city := dCity, district := dDistrict,
      region := dRegion, state := dState, zipcode := dZipcode, country := dCountry }
    attributes := status_entry }

/-- The attributes a `LocaAPI` instance has: the fields assigned in
`__init__` plus the methods of the class body (`api.py`). -/
def locaApiAttrs : List String :=
  ["_api_key", "_username", "_password", "_hass", "_session",
   "_authenticated", "_groups_cache",
   "_get_session", "authenticate", "logout", "get_assets",
   "get_user_locations", "get_status_list", "get_groups",
   "update_groups_cache", "get_group_name", "parse_status_as_device",
   "parse_location_as_device", "parse_device_data", "close"]

/-- Attribute lookup on a `LocaAPI` instance: an `AttributeError` with the
standard Python message for any name the class does not define. -/
def locaGetattr (name : String) : Except PyErr Unit :=
  if name ∈ locaApiAttrs then .ok ()
  else .error (.attributeError ("'LocaAPI' object has no attribute '" ++ name ++ "'"))

/-- The substrings of `APIConstants.AUTH_ERROR_TERMS` used to reclassify
free-text exceptions as authentication failures. -/
def authErrorTerms : List String :=
  ["auth", "401", "403", "unauthorized", "forbidden"]

/-- State of one coordinator: its API client, the consecutive-empty-poll
counter, the previous snapshot, and whether a config entry is attached. -/
structure CoordState where
  api : ApiState
  empty_device_count : Nat
  data : Option (List (String × StatusDevice))
  hasConfigEntry : Bool

/-- Environment of one poll cycle: the login behaviour plus the outcomes of
the groups and status-list POSTs. -/
structure CoordEnv where
  auth : AuthEnv
  groupsReq : HttpResult
  statusReq : HttpResult

/-- An exception escaping the coordinator's `try` body: either an
explicitly raised `ConfigEntryAuthFailed` or a free Python exception. -/
inductive CoordExc where
  | typed (msg : String)
  | py (e : PyErr)

/-- Result of one poll cycle as seen by the update framework. -/
inductive Outcome where
  | ok (devices : List (String × StatusDevice))
  | authFailed (msg : String)
  | updateFailed (msg : String)

/-- Dict-style insert keyed by device id (`devices[device_id] = ...`). -/
def devInsert (acc : List (String × StatusDevice)) (k : String) (v : StatusDevice) :
    List (String × StatusDevice) :=
  if acc.any (fun p => p.1 = k) then
    acc.map (fun p => if p.1 = k then (k, v) else p)
  else acc ++ [(k, v)]

/-- Elements produced by a Python `for` loop over a value. -/
def pyIterElems : PyVal → Except PyErr (List PyVal)
  | .list xs => .ok xs
  | .str s => .ok (s.toList.map (fun c => .str (String.singleton c)))
  | .dict d => .ok (d.map (fun p => .str p.1))
  | _ => .error (.typeError "object is not iterable")

/-- The normalization loop: each status entry goes through
`parse_status_as_device` and is stored under its device id. -/
def buildDevices (cache : List (Int × PyVal)) :
    List PyVal → List (String × StatusDevice) →
    Except PyErr (List (String × StatusDevice))
  | [], acc => .ok acc
  | x :: rest, acc =>
    match x with
    | .dict d =>
      match parse_status_as_device cache d with
      | .ok dev => buildDevices cache rest (devInsert acc dev.device_id dev)
      | .error e => .error e
    | _ => .error (.attributeError "object has no attribute 'get'")

/-- The `try` body of `_async_update_data` (lines 58-118 of
`coordinator.py`): the first statement reads the undefined attribute
`is_authenticated`; the remainder — lazy authentication, group-cache
refresh, status fetch, empty-list handling (which reads the attribute
again), normalization loop and issue management — is modelled faithfully
even though the first read already raises. -/
def coordTryBody (st : CoordState) (env : CoordEnv) :
    Except CoordExc (List (String × StatusDevice)) × CoordState × List Ev :=
  match locaGetattr "is_authenticated" with
  | .error e => (.error (.py e), st, [])
  | .ok _ =>
    let authStep :=
      if !st.api.authenticated then
        let r := authenticate st.api env.auth
        (r.1, { st with api := r.2.1 }, r.2.2)
      else (true, st, ([] : List Ev))
    match authStep with
    | (false, st, tr) => (.error (.typed "Authentication failed"), st, tr)
    | (true, st, tr) =>
      let g := update_groups_cache st.api { auth := env.auth, request := env.groupsReq }
      let st := { st with api := g.1 }
      let tr := tr ++ g.2.2
      match g.2.1 with
      | some e => (.error (.py e), st, tr)
      | Option.none =>
        let s := get_status_list st.api { auth := env.auth, request := env.statusReq }
        let statusVal := s.1
        let st := { st with api := s.2.1 }
        let tr := tr ++ s.2.2
        let emptyStep : Except CoordExc (CoordState × List Ev) :=
          if !truthy statusVal then
            match locaGetattr "is_authenticated" with
            | .error e => Except.error (CoordExc.py e)
            | .ok _ =>
              if st.api.authenticated then
                let st := { st with empty_device_count := st.empty_device_count + 1 }
                let tr :=
                  if st.empty_device_count ≥ 3 ∧ st.hasConfigEntry then
                    tr ++ [Ev.createNoDevicesIssue]
                  else tr
                Except.ok (st, tr)
              else
                Except.error (CoordExc.typed "Authentication required")
          else Except.ok (st, tr)
        match emptyStep with
        | .error (.typed m) =>
          let tr := if st.hasConfigEntry then tr ++ [Ev.createAuthIssue] else tr
          (.error (.typed m), st, tr)
        | .error (.py e) => (.error (.py e), st, tr)
        | .ok (st, tr) =>
          match pyIterElems statusVal with
          | .error e => (.error (.py e), st, tr)
          | .ok elems =>
            match buildDevices st.api.groups_cache elems [] with
            | .error e => (.error (.py e), st, tr)
            | .ok devices =>
              if !devices.isEmpty then
                (.ok devices,
                 { st with empty_device_count := 0 },
                 tr ++ [Ev.deleteIssues])
              else (.ok devices, st, tr)

/-- The generic exception handler of `_async_update_data` (lines 123-131):
an exception whose lower-cased text contains an `AUTH_ERROR_TERMS`
substring is reclassified as `ConfigEntryAuthFailed` (creating a repair
issue when a config entry is attached); every other exception becomes
`UpdateFailed`. -/
def handle_update_exc (hasCfg : Bool) (e : PyErr) : Outcome × List Ev :=
  let low := strLower (PyErr.text e)
  if authErrorTerms.any (fun t => containsSub low t) then
    (.authFailed ("Authentication error: " ++ PyErr.text e),
     if hasCfg then [Ev.createAuthIssue] else [])
  else
    (.updateFailed ("Error communicating with API: " ++ PyErr.text e), [])

/-- Model of `LocaDataUpdateCoordinator._async_update_data`: the `try` body
with `ConfigEntryAuthFailed` re-raised as-is and every other exception
routed through `handle_update_exc`. -/
def async_update_data (st : CoordState) (env : CoordEnv) :
    Outcome × CoordState × List Ev :=
  match coordTryBody st env with
  | (.ok devs, st, tr) => (.ok devs, st, tr)
  | (.error (.typed m), st, tr) => (.authFailed m, st, tr)
  | (.error (.py e), st, tr) =>
    let h := handle_update_exc st.hasConfigEntry e
    (h.1, st, tr ++ h.2)

/-! ## Helper lemmas -/

/-- Inversion of a successful bind in the `Except` monad. -/
theorem exceptBind_ok {ε α β : Type} {x : Except ε α} {f : α → Except ε β} {b : β} :
    (x >>= f) = .ok b ↔ ∃ a, x = .ok a ∧ f a = .ok b := by
  cases x <;> simp [Bind.bind, Except.bind]

/-- A `pure` in the `Except` monad is an `ok`. -/
theorem exceptPure_eq {ε α : Type} (a : α) : (pure a : Except ε α) = .ok a := rfl

/-- Inversion of a successful `Except.bind`. -/
theorem exceptBindRaw_ok {ε α β : Type} {x : Except ε α} {f : α → Except ε β} {b : β} :
    Except.bind x f = .ok b ↔ ∃ a, x = .ok a ∧ f a = .ok b := by
  cases x <;> simp [Except.bind]

/-! ## C1: every poll cycle fails with an authentication error before any
network activity -/

/-- Claim C1: for every coordinator state and environment, the poll cycle
`_async_update_data` yields the `ConfigEntryAuthFailed` failure whose text
comes from the `AttributeError` on the undefined attribute
`is_authenticated` (a message containing the substring `auth`, hence
reclassified by the generic handler), leaves the coordinator state
untouched, and performs no network request — in particular no fetch,
normalization, or publish step. -/
theorem update_cycle_always_auth_fails (st : CoordState) (env : CoordEnv) :
    (async_update_data st env).1 =
      Outcome.authFailed
        "Authentication error: 'LocaAPI' object has no attribute 'is_authenticated'" ∧
    (async_update_data st env).2.1 = st ∧
    ∀ e ∈ (async_update_data st env).2.2, e.isNetwork = false := by
  have hbody : coordTryBody st env =
      (.error (.py (.attributeError "'LocaAPI' object has no attribute 'is_authenticated'")),
       st, []) := rfl
  have hh : handle_update_exc st.hasConfigEntry
        (.attributeError "'LocaAPI' object has no attribute 'is_authenticated'") =
      (Outcome.authFailed
        "Authentication error: 'LocaAPI' object has no attribute 'is_authenticated'",
       if st.hasConfigEntry then [Ev.createAuthIssue] else []) := rfl
  have hres : async_update_data st env =
      (Outcome.authFailed
        "Authentication error: 'LocaAPI' object has no attribute 'is_authenticated'",
       st, [] ++ (if st.hasConfigEntry then [Ev.createAuthIssue] else [])) := by
    simp only [async_update_data, hbody, hh]
  rw [hres]
  refine ⟨rfl, rfl, ?_⟩
  cases st.hasConfigEntry <;> simp [Ev.isNetwork]

/-! ## C7: free-text classification of unexpected exceptions -/

/-- Claim C7: for every exception (not already a typed auth failure) caught
by the poll cycle's generic handler, the outcome is `ConfigEntryAuthFailed`
exactly when the lower-cased exception text contains one of `auth`, `401`,
`403`, `unauthorized`, `forbidden`, and is `UpdateFailed` exactly
otherwise. -/
theorem unexpected_exception_classification (hasCfg : Bool) (e : PyErr) :
    ((handle_update_exc hasCfg e).1 =
        Outcome.authFailed ("Authentication error: " ++ PyErr.text e) ↔
      (containsSub (strLower (PyErr.text e)) "auth" = true ∨
       containsSub (strLower (PyErr.text e)) "401" = true ∨
       containsSub (strLower (PyErr.text e)) "403" = true ∨
       containsSub (strLower (PyErr.text e)) "unauthorized" = true ∨
       containsSub (strLower (PyErr.text e)) "forbidden" = true)) ∧
    ((handle_update_exc hasCfg e).1 =
        Outcome.updateFailed ("Error communicating with API: " ++ PyErr.text e) ↔
      ¬ (containsSub (strLower (PyErr.text e)) "auth" = true ∨
         containsSub (strLower (PyErr.text e)) "401" = true ∨
         containsSub (strLower (PyErr.text e)) "403" = true ∨
         containsSub (strLower (PyErr.text e)) "unauthorized" = true ∨
         containsSub (strLower (PyErr.text e)) "forbidden" = true)) := by
  have hcond : (authErrorTerms.any fun t => containsSub (strLower (PyErr.text e)) t) = true ↔
      (containsSub (strLower (PyErr.text e)) "auth" = true ∨
       containsSub (strLower (PyErr.text e)) "401" = true ∨
       containsSub (strLower (PyErr.text e)) "403" = true ∨
       containsSub (strLower (PyErr.text e)) "unauthorized" = true ∨
       containsSub (strLower (PyErr.text e)) "forbidden" = true) := by
    simp [authErrorTerms]
  have hrun : (handle_update_exc hasCfg e).1 =
      (if (authErrorTerms.any fun t => containsSub (strLower (PyErr.text e)) t) then
        Outcome.authFailed ("Authentication error: " ++ PyErr.text e)
      else Outcome.updateFailed ("Error communicating with API: " ++ PyErr.text e)) := by
    simp only [handle_update_exc]
    cases hany : (authErrorTerms.any fun t => containsSub (strLower (PyErr.text e)) t) <;>
      simp [hany]
  cases hb : (authErrorTerms.any fun t => containsSub (strLower (PyErr.text e)) t)
  case false =>
    simp only [hb, Bool.false_eq_true, if_false] at hrun
    have hor : ¬ (containsSub (strLower (PyErr.text e)) "auth" = true ∨
        containsSub (strLower (PyErr.text e)) "401" = true ∨
        containsSub (strLower (PyErr.text e)) "403" = true ∨
        containsSub (strLower (PyErr.text e)) "unauthorized" = true ∨
        containsSub (strLower (PyErr.text e)) "forbidden" = true) :=
      fun hc => by simp [hcond.mpr hc] at hb
    exact ⟨⟨fun hEq => absurd (hrun.symm.trans hEq) (fun hcc => Outcome.noConfusion hcc),
            fun hc => absurd hc hor⟩,
          ⟨fun _ => hor, fun _ => hrun⟩⟩
  case true =>
    simp only [hb, if_true] at hrun
    have hor := hcond.mp hb
    exact ⟨⟨fun _ => hor, fun _ => hrun⟩,
          ⟨fun hEq => absurd (hrun.symm.trans hEq) (fun hcc => Outcome.noConfusion hcc),
            fun hnot => absurd hor hnot⟩⟩

/-! ## C9: `get_group_name` is total and pure -/

/-- Claim C9: `get_group_name` returns the empty string for `None` and for
any integer id not present in the group cache, raising no exception; it is
a pure read of the cache (the embedding takes the cache by value and
returns only the answer, so no state change and no fetch can occur). -/
theorem get_group_name_total (cache : List (Int × PyVal)) (i : Int)
    (h : cacheLookup cache i = Option.none) :
    get_group_name PyVal.none cache = .ok (.str "") ∧
    get_group_name (.int i) cache = .ok (.str "") := by
  refine ⟨rfl, ?_⟩
  simp [get_group_name, pyInt, Bind.bind, Except.bind, h, exceptPure_eq]

/-- Witness for C9 at a concrete cache and id. -/
theorem get_group_name_total_witness :
    get_group_name PyVal.none [((248 : Int), PyVal.str "Autos")] = .ok (.str "") ∧
    get_group_name (.int 5) [((248 : Int), PyVal.str "Autos")] = .ok (.str "") :=
  get_group_name_total [((248 : Int), PyVal.str "Autos")] 5 rfl

/-! ## C8: `update_groups_cache` is a full replace -/

/-- The group payload of every `get_groups` response resolution is a list. -/
theorem groupsFromResponse_is_list (data : PyVal) :
    ∃ gs, groupsFromResponse data = PyVal.list gs := by
  cases data with
  | dict d =>
    cases h : dictLookup d "groups" with
    | none => exact ⟨[], by simp [groupsFromResponse, h]⟩
    | some v => cases v <;> simp only [groupsFromResponse, h] <;> exact ⟨_, rfl⟩
  | none => exact ⟨[], rfl⟩
  | bool b => exact ⟨[], rfl⟩
  | int n => exact ⟨[], rfl⟩
  | float q => exact ⟨[], rfl⟩
  | str s => exact ⟨[], rfl⟩
  | list xs => exact ⟨xs, rfl⟩

/-- Every `get_groups` call returns a list payload. -/
theorem get_groups_payload_is_list (st : ApiState) (env : FetchEnv) :
    ∃ gs, (get_groups st env).1 = PyVal.list gs := by
  unfold get_groups runFetcher
  cases hb : (if st.authenticated = true then (true, st, ([] : List Ev))
      else authenticate st env.auth) with
  | mk ok rest =>
    cases ok
    · exact ⟨[], rfl⟩
    · cases env.request with
      | exc e => exact ⟨[], rfl⟩
      | resp status body =>
        by_cases hs : status = 200
        · cases body with
          | notJson t => simp [hs]
          | json data =>
            simp only [hs, if_true, Bool.not_true, Bool.false_eq_true, if_false]
            exact groupsFromResponse_is_list data
        · simp [hs]

/-- Inversion of one successful `update_groups_cache` loop iteration: the
cache is unchanged (null or absent id) or receives exactly one insert. -/
theorem groupStep_ok_inv {acc c' : List (Int × PyVal)} {g : PyVal}
    (h : groupStep acc g = .ok c') :
    c' = acc ∨ ∃ d, g = PyVal.dict d ∧ ∃ v i label,
      (dictLookup d "id").getD PyVal.none = v ∧ v ≠ PyVal.none ∧ pyInt v = .ok i ∧
      c' = cacheInsert acc i label := by
  cases g <;> simp [groupStep, pyGetOpt, pyGet, Bind.bind, Except.bind] at h
  case dict d =>
    cases hw : (dictLookup d "id").getD PyVal.none <;>
        simp only [hw, pyInt, Bind.bind, Except.bind, pure, Except.pure] at h
    case none => exact Or.inl (by injection h with h2; exact h2.symm)
    case bool b =>
      refine Or.inr ⟨d, rfl, .bool b, ?_⟩
      injection h with h2
      exact ⟨_, _, hw, by simp, rfl, h2.symm⟩
    case int n =>
      refine Or.inr ⟨d, rfl, .int n, ?_⟩
      injection h with h2
      exact ⟨_, _, hw, by simp, rfl, h2.symm⟩
    case float q =>
      refine Or.inr ⟨d, rfl, .float q, ?_⟩
      injection h with h2
      exact ⟨_, _, hw, by simp, rfl, h2.symm⟩
    case str s =>
      cases hp : pyParseInt s with
      | none => rw [hp] at h; exact absurd h (by simp)
      | some n =>
        rw [hp] at h
        refine Or.inr ⟨d, rfl, .str s, ?_⟩
        injection h with h2
        exact ⟨n, _, hw, by simp, by simp [pyInt, hp], h2.symm⟩
    case list xs => exact absurd h (by simp)
    case dict d2 => exact absurd h (by simp)

/-- Keys in the overwrite branch of `cacheInsert` come from the inserted
key or the previous cache. -/
theorem cacheLookup_map_isSome {k j : Int} {v : PyVal} :
    ∀ c : List (Int × PyVal),
    (cacheLookup (c.map (fun p => if p.1 = k then (k, v) else p)) j).isSome = true →
    j = k ∨ (cacheLookup c j).isSome = true := by
  intro c
  induction c with
  | nil => simp [cacheLookup]
  | cons a rest ih =>
    rcases a with ⟨a1, a2⟩
    intro h
    simp only [List.map_cons] at h
    by_cases ha : a1 = k
    · rw [if_pos ha] at h
      rw [cacheLookup] at h
      by_cases hj : k = j
      · exact Or.inl hj.symm
      · rw [if_neg hj] at h
        rcases ih h with h1 | h2
        · exact Or.inl h1
        · refine Or.inr ?_
          rw [cacheLookup]
          by_cases hj2 : a1 = j
          · simp [hj2]
          · rw [if_neg hj2]; exact h2
    · rw [if_neg ha] at h
      rw [cacheLookup] at h
      by_cases hj2 : a1 = j
      · refine Or.inr ?_; rw [cacheLookup, if_pos hj2]; rfl
      · rw [if_neg hj2] at h
        rcases ih h with h1 | h2
        · exact Or.inl h1
        · exact Or.inr (by rw [cacheLookup, if_neg hj2]; exact h2)

/-- Keys in the append branch of `cacheInsert` come from the inserted key
or the previous cache. -/
theorem cacheLookup_append_single_isSome {k j : Int} {v : PyVal} :
    ∀ c : List (Int × PyVal),
    (cacheLookup (c ++ [(k, v)]) j).isSome = true →
    j = k ∨ (cacheLookup c j).isSome = true := by
  intro c
  induction c with
  | nil =>
    intro h
    simp only [List.nil_append, cacheLookup] at h
    by_cases hj : k = j
    · exact Or.inl hj.symm
    · rw [if_neg hj] at h; simp [cacheLookup] at h
  | cons a rest ih =>
    rcases a with ⟨a1, a2⟩
    intro h
    rw [List.cons_append, cacheLookup] at h
    by_cases hj : a1 = j
    · exact Or.inr (by rw [cacheLookup, if_pos hj]; rfl)
    · rw [if_neg hj] at h
      rcases ih h with h1 | h2
      · exact Or.inl h1
      · exact Or.inr (by rw [cacheLookup, if_neg hj]; exact h2)

/-- Keys present after a `cacheInsert` are the inserted key or keys of the
previous cache. -/
theorem cacheLookup_insert_isSome {c : List (Int × PyVal)} {k j : Int} {v : PyVal}
    (h : (cacheLookup (cacheInsert c k v) j).isSome = true) :
    j = k ∨ (cacheLookup c j).isSome = true := by
  unfold cacheInsert at h
  split at h
  · exact cacheLookup_map_isSome c h
  · exact cacheLookup_append_single_isSome c h

/-- Soundness of the cache fill: every key of the rebuilt cache not already
present in the accumulator comes from some fetched group with a non-null
id coercing to that key. -/
theorem fillCache_lookup_sound :
    ∀ (gs : List PyVal) (acc : List (Int × PyVal)) (k : Int),
    (cacheLookup (fillCache gs acc).1 k).isSome = true →
    (cacheLookup acc k).isSome = true ∨
      ∃ g ∈ gs, ∃ d, g = PyVal.dict d ∧ ∃ v, (dictLookup d "id").getD PyVal.none = v ∧
        v ≠ PyVal.none ∧ pyInt v = .ok k := by
  intro gs
  induction gs with
  | nil => intro acc k h; exact Or.inl (by simpa [fillCache] using h)
  | cons g rest ih =>
    intro acc k h
    rw [fillCache] at h
    cases hg : groupStep acc g with
    | error e =>
      rw [hg] at h
      exact Or.inl h
    | ok c' =>
      rw [hg] at h
      rcases ih c' k h with hacc | ⟨g', hg', rest'⟩
      · rcases groupStep_ok_inv hg with hsame | ⟨d, hd, v, i, label, hv, hvne, hvi, hins⟩
        · exact Or.inl (hsame ▸ hacc)
        · subst hins
          rcases cacheLookup_insert_isSome hacc with hk | hold
          · exact Or.inr ⟨g, List.mem_cons_self g rest, d, hd, v, hv, hvne, by rw [hvi, hk]⟩
          · exact Or.inl hold
      · exact Or.inr ⟨g', List.mem_cons_of_mem g hg', rest'⟩

/-- Groups returned by the spec's concrete fetch example. -/
def c8FetchedGroups : List PyVal :=
  [PyVal.dict [("id", PyVal.int 248), ("label", PyVal.str "Autos")],
   PyVal.dict [("id", PyVal.int 276), ("label", PyVal.str "Motoren")]]

/-- An authenticated client holding a stale cache entry before the refresh. -/
def c8State : ApiState :=
  { api_key := "key", username := "user", password := "pw", hass := true,
    session := some SessionKind.hassShared, authenticated := true,
    groups_cache := [((9 : Int), PyVal.str "Stale")] }

/-- Environment whose groups POST yields the spec's concrete fetch example. -/
def c8Env : FetchEnv :=
  { auth := { connectivity := HttpResult.resp 200 (HttpBody.json PyVal.none),
              login := HttpResult.resp 200 (HttpBody.json PyVal.none) },
    request := HttpResult.resp 200
      (HttpBody.json (PyVal.dict [("groups", PyVal.list c8FetchedGroups)])) }

/-- Claim C8: `update_groups_cache` rebuilds the cache in full from the
fresh fetch: the rebuilt cache is `fillCache` of the fetched groups started
from the empty cache (so no prior entry survives), every key of the result
comes from a fetched group whose id is non-null, groups with a null or
absent id are skipped, and the spec's concrete fetch example yields exactly
its two entries, discarding the stale one. -/
theorem update_groups_cache_full_replace :
    ((get_groups c8State c8Env).1 = PyVal.list c8FetchedGroups ∧
      (update_groups_cache c8State c8Env).1.groups_cache =
        [((248 : Int), PyVal.str "Autos"), ((276 : Int), PyVal.str "Motoren")]) ∧
    (∀ st env, ∃ gs, (get_groups st env).1 = PyVal.list gs ∧
      (update_groups_cache st env).1.groups_cache = (fillCache gs []).1) ∧
    (∀ gs k, (cacheLookup (fillCache gs []).1 k).isSome = true →
      ∃ g ∈ gs, ∃ d, g = PyVal.dict d ∧ ∃ v, (dictLookup d "id").getD PyVal.none = v ∧
        v ≠ PyVal.none ∧ pyInt v = .ok k) ∧
    (∀ (d : List (String × PyVal)) gs₁ gs₂ c,
      (dictLookup d "id").getD PyVal.none = PyVal.none →
      fillCache (gs₁ ++ PyVal.dict d :: gs₂) c = fillCache (gs₁ ++ gs₂) c) := by
  refine ⟨⟨rfl, rfl⟩, ?_, ?_, ?_⟩
  · intro st env
    obtain ⟨gs, hgs⟩ := get_groups_payload_is_list st env
    refine ⟨gs, hgs, ?_⟩
    rcases hr : get_groups st env with ⟨pay, st', tr⟩
    have hpay : pay = PyVal.list gs := by rw [hr] at hgs; exact hgs
    subst hpay
    simp [update_groups_cache, hr]
  · intro gs k h
    rcases fillCache_lookup_sound gs [] k h with hl | hr
    · simp [cacheLookup] at hl
    · exact hr
  · intro d gs₁ gs₂ c hid
    have hstep : ∀ acc, groupStep acc (PyVal.dict d) = .ok acc := by
      intro acc
      simp [groupStep, pyGetOpt, pyGet, Bind.bind, Except.bind, hid, exceptPure_eq]
    induction gs₁ generalizing c with
    | nil => simp [fillCache, hstep c]
    | cons g rest ih =>
      simp only [List.cons_append, fillCache]
      cases hg : groupStep c g with
      | ok c2 => exact ih c2
      | error e => rfl

/-- Witness for C8's null-id-skipping conjunct at a concrete group list. -/
theorem update_groups_cache_full_replace_witness :
    fillCache ([] ++ PyVal.dict [("id", PyVal.none)] :: c8FetchedGroups) [] =
      fillCache ([] ++ c8FetchedGroups) [] :=
  update_groups_cache_full_replace.2.2.2 [("id", PyVal.none)] [] c8FetchedGroups [] rfl

/-! ## C6: session-closing policy of `close` -/

/-- `_get_session` always leaves a session in place. -/
theorem getSession_isSome (st : ApiState) : (getSession st).session.isSome = true := by
  rcases st with ⟨k, u, p, hs, sess, auth, gc⟩
  cases sess <;> simp [getSession]

/-- `_get_session` changes no field but the session. -/
theorem getSession_fields (st : ApiState) :
    (getSession st).hass = st.hass ∧ (getSession st).authenticated = st.authenticated := by
  rcases st with ⟨k, u, p, hs, sess, auth, gc⟩
  cases sess <;> simp [getSession]

/-- Shape of an authenticated `logout` call: one logout POST, the session
taken from `_get_session`, `hass` untouched. -/
theorem logout_parts (st : ApiState) (env : HttpResult) (h : st.authenticated = true) :
    (logout st env).2.2 = [Ev.logoutPost] ∧
    (logout st env).2.1.session = (getSession st).session ∧
    (logout st env).2.1.hass = st.hass := by
  unfold logout
  rw [h]
  cases env with
  | exc e => simp [(getSession_fields st).1]
  | resp status body =>
    by_cases hs200 : status = 200
    · cases body with
      | notJson t => simp [hs200, (getSession_fields st).1]
      | json data =>
        by_cases hok : statusOkBody data = true <;>
          simp [hs200, hok, (getSession_fields st).1]
    · simp [hs200, (getSession_fields st).1]

/-- A client whose session was supplied externally at construction, with no
`hass` handle. -/
def c6State : ApiState :=
  { api_key := "k", username := "u", password := "p", hass := false,
    session := some SessionKind.external, authenticated := false, groups_cache := [] }

/-- Claim C6 counterexample: `close` on a client holding an externally
supplied session (and no `hass` handle) does close that session — the
ownership test is `not self._hass`, not self-creation. -/
theorem close_external_session_counterexample :
    c6State.session = some SessionKind.external ∧
    (close c6State (HttpResult.resp 200 (HttpBody.json PyVal.none))).2 = [Ev.sessionClose] :=
  ⟨rfl, rfl⟩

/-- Amended C6: `close` closes the session it holds exactly when no `hass`
handle was supplied and a session exists (or is created by the logout
step), regardless of who supplied it; with a `hass` handle nothing is ever
closed; afterwards `AuthState` is `false`; and a second `close` never
closes again (close-at-most-once). -/
theorem close_session_policy (st : ApiState) (env : HttpResult) :
    (st.hass = true → Ev.sessionClose ∉ (close st env).2) ∧
    (Ev.sessionClose ∈ (close st env).2 ↔
      st.hass = false ∧ (st.session.isSome = true ∨ st.authenticated = true)) ∧
    (close st env).1.authenticated = false ∧
    (close st env).1.hass = st.hass ∧
    (∀ env', Ev.sessionClose ∉ (close (close st env).1 env').2) := by
  have key : ∀ (s : ApiState) (e : HttpResult),
      (Ev.sessionClose ∈ (close s e).2 ↔
        s.hass = false ∧ (s.session.isSome = true ∨ s.authenticated = true)) ∧
      (close s e).1.authenticated = false ∧
      (close s e).1.hass = s.hass ∧
      (s.hass = false → (close s e).1.session = Option.none) := by
    intro s e
    cases hauth : s.authenticated with
    | false =>
      rcases s with ⟨k, u, p, hs, sess, auth, gc⟩
      cases hauth
      cases hs <;> cases sess <;> simp [close]
    | true =>
      obtain ⟨htr, hsess, hhass⟩ := logout_parts s e hauth
      have hsome : (logout s e).2.1.session.isSome = true := by
        rw [hsess]; exact getSession_isSome s
      unfold close
      rw [hauth]
      simp only [if_true]
      cases hh : s.hass with
      | false =>
        simp [hsome, hhass, hh, htr, hauth]
      | true =>
        simp [hsome, hhass, hh, htr, hauth]
  obtain ⟨hiff, hauth', hhass', hnone⟩ := key st env
  refine ⟨?_, hiff, hauth', hhass', ?_⟩
  · intro hh hmem
    have := hiff.mp hmem
    rw [hh] at this
    exact absurd this.1 (by simp)
  · intro env' hmem
    have h2 := (key (close st env).1 env').1.mp hmem
    rcases h2 with ⟨hh0, hcase⟩
    rcases hcase with hs0 | ha0
    · have : (close st env).1.session = Option.none := hnone (hhass' ▸ hh0)
      rw [this] at hs0
      exact absurd hs0 (by simp)
    · rw [hauth'] at ha0
      exact absurd ha0 (by simp)

/-- Witness for C6's amended policy at the externally supplied session. -/
theorem close_session_policy_witness :
    Ev.sessionClose ∈ (close c6State (HttpResult.resp 200 (HttpBody.json PyVal.none))).2 :=
  (close_session_policy c6State (HttpResult.resp 200 (HttpBody.json PyVal.none))).2.1.mpr
    ⟨rfl, Or.inl rfl⟩

/-! ## C3: the `authenticate` contract -/

/-- Characterization of the login-body success test: the parsed body must
be a dict whose `user` value is a non-empty dict (Python truthiness of the
`user` object). -/
theorem loginBodySuccess_iff (data : PyVal) :
    loginBodySuccess data = true ↔
      ∃ d u, data = PyVal.dict d ∧ dictLookup d "user" = some (PyVal.dict u) ∧ u ≠ [] := by
  cases data <;> simp [loginBodySuccess]
  case dict d =>
    cases hu : dictLookup d "user" with
    | none => simp [hu]
    | some v =>
      cases v <;> simp [hu, truthy, isDict, List.isEmpty_iff]

/-- A well-credentialed, unauthenticated client before a login attempt. -/
def c3State : ApiState :=
  { api_key := "key", username := "user", password := "pw", hass := false,
    session := Option.none, authenticated := false, groups_cache := [] }

/-- A login environment answering HTTP 200 with a JSON body containing a
`user` object — the empty dict. -/
def c3Env : AuthEnv :=
  { connectivity := HttpResult.resp 200 (HttpBody.json PyVal.none),
    login := HttpResult.resp 200 (HttpBody.json (PyVal.dict [("user", PyVal.dict [])])) }

/-- Claim C3 counterexample: a 200 JSON login body containing a `user`
object (here the empty dict, which is falsy in Python) still makes
`authenticate` return `false` with `AuthState` left `false`. -/
theorem authenticate_empty_user_counterexample :
    c3Env.login = HttpResult.resp 200 (HttpBody.json (PyVal.dict [("user", PyVal.dict [])])) ∧
    (authenticate c3State c3Env).1 = false ∧
    (authenticate c3State c3Env).2.1.authenticated = false :=
  ⟨rfl, rfl, rfl⟩

/-- Amended C3: with any credential empty, `authenticate` returns `false`
immediately, with no network event and an unchanged state; with full
credentials it returns `true` and sets `AuthState` exactly when the login
POST yields HTTP 200 with a JSON dict body whose `user` value is a
non-empty dict; in every other case (non-200, non-JSON, missing or falsy
or non-dict `user`, network exception) it returns `false` and `AuthState`
stays `false` — no case raises. -/
theorem authenticate_contract (st : ApiState) (env : AuthEnv)
    (hauth : st.authenticated = false) :
    ((st.api_key = "" ∨ st.username = "" ∨ st.password = "") →
      authenticate st env = (false, st, [Ev.authInvoke])) ∧
    (¬ (st.api_key = "" ∨ st.username = "" ∨ st.password = "") →
      (((authenticate st env).1 = true ∧ (authenticate st env).2.1.authenticated = true) ↔
        ∃ d u, env.login = HttpResult.resp 200 (HttpBody.json (PyVal.dict d)) ∧
          dictLookup d "user" = some (PyVal.dict u) ∧ u ≠ []) ∧
      ((authenticate st env).1 = false →
        (authenticate st env).2.1.authenticated = false)) := by
  have hst' : (getSession st).authenticated = false := by
    rw [(getSession_fields st).2]; exact hauth
  constructor
  · intro hm
    unfold authenticate
    rw [if_pos hm]
  · intro hm
    unfold authenticate
    rw [if_neg hm]
    cases henv : env.login with
    | exc e => simp [hst', henv]
    | resp status body =>
      by_cases h200 : status = 200
      · cases body with
        | notJson t => simp [h200, hst', henv]
        | json data =>
          by_cases hok : loginBodySuccess data = true
          · rcases (loginBodySuccess_iff data).mp hok with ⟨d, u, hdata, hu, hne⟩
            subst hdata
            subst h200
            simp only [if_pos rfl, hok, if_true]
            constructor
            · constructor
              · intro _; exact ⟨d, u, rfl, hu, hne⟩
              · intro _; exact ⟨trivial, trivial⟩
            · intro hfalse; exact absurd hfalse (by simp)
          · have hok' : loginBodySuccess data = false := by
              cases hb : loginBodySuccess data
              · rfl
              · exact absurd hb hok
            subst h200
            simp only [if_pos rfl, hok', Bool.false_eq_true, if_false]
            constructor
            · constructor
              · intro hcon; exact absurd hcon.1 (by simp)
              · intro hex
                rcases hex with ⟨d, u, hlogin, hu, hne⟩
                injection hlogin with h1 h2
                injection h2 with h3
                have : loginBodySuccess data = true := by
                  rw [h3]
                  exact (loginBodySuccess_iff (PyVal.dict d)).mpr ⟨d, u, rfl, hu, hne⟩
                exact absurd this hok
            · intro _; exact hst'
      · simp only [if_neg h200]
        constructor
        · constructor
          · intro hcon; exact absurd hcon.1 (by simp)
          · intro hex
            rcases hex with ⟨d, u, hlogin, hu, hne⟩
            injection hlogin with h1 h2
            exact absurd h1 h200
        · intro _; exact hst'

/-- Environment whose login yields 200 with a non-empty `user` object. -/
def c3SuccessEnv : AuthEnv :=
  { connectivity := HttpResult.resp 200 (HttpBody.json PyVal.none),
    login := HttpResult.resp 200
      (HttpBody.json (PyVal.dict [("user", PyVal.dict [("userid", PyVal.int 7)])])) }

/-- Witness for C3's amended contract on a successful login. -/
theorem authenticate_contract_witness :
    (authenticate c3State c3SuccessEnv).1 = true ∧
    (authenticate c3State c3SuccessEnv).2.1.authenticated = true :=
  ((authenticate_contract c3State c3SuccessEnv rfl).2 (by decide)).1.mpr
    ⟨[("user", PyVal.dict [("userid", PyVal.int 7)])], [("userid", PyVal.int 7)], rfl, rfl,
      by simp⟩

/-! ## C10: fetchers fail closed when lazy authentication fails -/

/-- `_get_session` preserves the credentials. -/
theorem getSession_creds (st : ApiState) :
    (getSession st).api_key = st.api_key ∧ (getSession st).username = st.username ∧
    (getSession st).password = st.password := by
  rcases st with ⟨k, u, p, hs, sess, auth, gc⟩
  cases sess <;> simp [getSession]

/-- Observable facts about every `authenticate` call: credentials are
untouched, a failing call leaves `_authenticated` as it was, exactly one
invocation happens, and no resource POST is issued. -/
theorem authenticate_parts (st : ApiState) (env : AuthEnv) :
    (authenticate st env).2.1.api_key = st.api_key ∧
    (authenticate st env).2.1.username = st.username ∧
    (authenticate st env).2.1.password = st.password ∧
    ((authenticate st env).1 = false →
      (authenticate st env).2.1.authenticated = st.authenticated) ∧
    (authenticate st env).2.2.count Ev.authInvoke = 1 ∧
    (∀ e ∈ (authenticate st env).2.2, e.isResourcePost = false) := by
  obtain ⟨hgk, hgu, hgp⟩ := getSession_creds st
  have hga := (getSession_fields st).2
  unfold authenticate
  by_cases hc : (st.api_key = "" ∨ st.username = "" ∨ st.password = "")
  · rw [if_pos hc]
    refine ⟨rfl, rfl, rfl, fun _ => rfl, rfl, ?_⟩
    intro e he
    simp at he
    rw [he]; rfl
  · rw [if_neg hc]
    have hterm : ∀ e ∈ [Ev.authInvoke, Ev.connGet, Ev.loginPost], e.isResourcePost = false := by
      intro e he
      simp only [List.mem_cons, List.not_mem_nil, or_false] at he
      rcases he with rfl | rfl | rfl <;> rfl
    cases env.login with
    | exc e => exact ⟨hgk, hgu, hgp, fun _ => hga, rfl, hterm⟩
    | resp status body =>
      by_cases h200 : status = 200
      · cases body with
        | notJson t => simp only [h200, if_pos rfl]; exact ⟨hgk, hgu, hgp, fun _ => hga, rfl, hterm⟩
        | json data =>
          by_cases hok : loginBodySuccess data = true
          · simp only [h200, if_pos rfl, hok, if_true]
            refine ⟨hgk, hgu, hgp, fun hfalse => absurd hfalse (by simp), rfl, hterm⟩
          · have hok' : loginBodySuccess data = false := by
              cases hb : loginBodySuccess data
              · rfl
              · exact absurd hb hok
            simp only [h200, if_pos rfl, hok', Bool.false_eq_true, if_false]
            exact ⟨hgk, hgu, hgp, fun _ => hga, rfl, hterm⟩
      · simp only [if_neg h200]
        exact ⟨hgk, hgu, hgp, fun _ => hga, rfl, hterm⟩

/-- When the client is unauthenticated and the lazy authentication fails,
every fetcher short-circuits to the authentication attempt itself. -/
theorem runFetcher_auth_fail (shape : PyVal → PyVal) (ev : Ev)
    (st : ApiState) (env : FetchEnv)
    (h0 : st.authenticated = false)
    (hfail : (authenticate st env.auth).1 = false) :
    runFetcher shape ev st env =
      (PyVal.list [], (authenticate st env.auth).2.1, (authenticate st env.auth).2.2) := by
  unfold runFetcher
  rw [if_neg (by simp [h0])]
  rcases ha : authenticate st env.auth with ⟨ok, st', tr'⟩
  have hok : ok = false := by rw [ha] at hfail; exact hfail
  subst hok
  simp

/-- The fail-closed contract one fetcher call must satisfy under a failing
lazy authentication: empty result, `AuthState` still false, exactly one
authentication attempt, no resource POST. -/
def fetcherFailsClosed (f : ApiState → FetchEnv → PyVal × ApiState × List Ev)
    (st : ApiState) (env : FetchEnv) : Prop :=
  (f st env).1 = PyVal.list [] ∧
  (f st env).2.1.authenticated = false ∧
  (f st env).2.2.count Ev.authInvoke = 1 ∧
  (∀ e ∈ (f st env).2.2, e.isResourcePost = false)

/-- One fetcher call fails closed under a failing lazy authentication. -/
theorem runFetcher_fails_closed (shape : PyVal → PyVal) (ev : Ev)
    (st : ApiState) (env : FetchEnv)
    (h0 : st.authenticated = false)
    (hfail : (authenticate st env.auth).1 = false) :
    fetcherFailsClosed (runFetcher shape ev) st env := by
  have hrun := runFetcher_auth_fail shape ev st env h0 hfail
  obtain ⟨_, _, _, hpres, hcount, hpost⟩ := authenticate_parts st env.auth
  refine ⟨by rw [hrun], ?_, ?_, ?_⟩
  · rw [hrun]
    exact (hpres hfail).trans h0
  · rw [hrun]
    exact hcount
  · rw [hrun]
    exact hpost

/-- Claim C10: each of the four fetchers, called unauthenticated with a
failing `authenticate`, returns the empty list without a resource request,
attempting authentication exactly once and leaving `AuthState` false; a
second call under a failing authentication behaves identically
(idempotence of the failing path). -/
theorem fetchers_fail_closed (st : ApiState) (env env' : FetchEnv)
    (h0 : st.authenticated = false)
    (hfail : (authenticate st env.auth).1 = false)
    (hfail' : (authenticate (authenticate st env.auth).2.1 env'.auth).1 = false) :
    fetcherFailsClosed get_assets st env ∧
    fetcherFailsClosed get_status_list st env ∧
    fetcherFailsClosed get_user_locations st env ∧
    fetcherFailsClosed get_groups st env ∧
    fetcherFailsClosed get_assets ((get_assets st env).2.1) env' ∧
    fetcherFailsClosed get_status_list ((get_status_list st env).2.1) env' ∧
    fetcherFailsClosed get_user_locations ((get_user_locations st env).2.1) env' ∧
    fetcherFailsClosed get_groups ((get_groups st env).2.1) env' := by
  have hpres := (authenticate_parts st env.auth).2.2.2.1 hfail
  have h1 : (authenticate st env.auth).2.1.authenticated = false := hpres.trans h0
  have hsecond : ∀ shape ev shape' ev',
      fetcherFailsClosed (runFetcher shape' ev')
        ((runFetcher shape ev st env).2.1) env' := by
    intro shape ev shape' ev'
    rw [runFetcher_auth_fail shape ev st env h0 hfail]
    exact runFetcher_fails_closed shape' ev' _ env' h1 hfail'
  exact ⟨runFetcher_fails_closed _ _ st env h0 hfail,
    runFetcher_fails_closed _ _ st env h0 hfail,
    runFetcher_fails_closed _ _ st env h0 hfail,
    runFetcher_fails_closed _ _ st env h0 hfail,
    hsecond _ _ _ _, hsecond _ _ _ _, hsecond _ _ _ _, hsecond _ _ _ _⟩

/-- A well-credentialed, unauthenticated client whose login is rejected. -/
def c10State : ApiState :=
  { api_key := "key", username := "user", password := "pw", hass := false,
    session := Option.none, authenticated := false, groups_cache := [] }

/-- Environment whose login POST is answered 401. -/
def c10Env : FetchEnv :=
  { auth := { connectivity := HttpResult.resp 200 (HttpBody.json PyVal.none),
              login := HttpResult.resp 401 (HttpBody.notJson "denied") },
    request := HttpResult.resp 200 (HttpBody.json (PyVal.list [])) }

/-- Witness for C10 at a rejected login. -/
theorem fetchers_fail_closed_witness :
    fetcherFailsClosed get_assets c10State c10Env :=
  (fetchers_fail_closed c10State c10Env c10Env rfl rfl rfl).1

/-! ## C4: the fixed address template -/

/-- The spec's concrete status record: a Spot with all five place fields. -/
def c4Entry : List (String × PyVal) :=
  [("Asset", PyVal.dict [("id", PyVal.int 12345)]),
   ("Spot", PyVal.dict [("street", PyVal.str "Test Street"), ("number", PyVal.str "42"),
     ("zipcode", PyVal.str "1234AB"), ("city", PyVal.str "Amsterdam"),
     ("country", PyVal.str "Netherlands")])]

/-- A status record with no Spot block at all. -/
def c4EntryNoSpot : List (String × PyVal) :=
  [("Asset", PyVal.dict [("id", PyVal.int 12345)])]

/-- Claim C4: the address is built from the fixed three-segment template —
the spec's concrete record formats to exactly
`"Test Street 42, 1234AB Amsterdam, Netherlands"`, a record with no Spot
block yields a `null` address (not an empty string), and each segment is
omitted entirely whenever its constituent fields are all absent. -/
theorem address_template_exact :
    ((parse_status_as_device [] c4Entry).map StatusDevice.address =
      Except.ok (some "Test Street 42, 1234AB Amsterdam, Netherlands")) ∧
    ((parse_status_as_device [] c4EntryNoSpot).map StatusDevice.address =
      Except.ok Option.none) ∧
    (∀ d : List (String × PyVal),
      (dictLookup d "street" = Option.none → dictLookup d "number" = Option.none →
        streetSegment d = Option.none) ∧
      (dictLookup d "zipcode" = Option.none → dictLookup d "city" = Option.none →
        zipCitySegment d = Except.ok Option.none) ∧
      (dictLookup d "country" = Option.none → countrySegment d = Option.none)) := by
  refine ⟨rfl, rfl, fun d => ⟨?_, ?_, ?_⟩⟩
  · intro h1 h2
    simp [streetSegment, h1, h2, truthy]
  · intro h1 h2
    simp [zipCitySegment, h1, h2, truthy]
  · intro h1
    simp [countrySegment, h1, truthy]

/-- Witness for C4's segment-omission conjunct on the empty place dict. -/
theorem address_template_exact_witness :
    streetSegment [] = Option.none ∧
    zipCitySegment [] = Except.ok Option.none ∧
    countrySegment [] = Option.none :=
  ⟨(address_template_exact.2.2 []).1 rfl rfl,
   (address_template_exact.2.2 []).2.1 rfl rfl,
   (address_template_exact.2.2 []).2.2 rfl⟩

/-! ## C5: the `gps_accuracy` defaults -/

/-- Inversion of a successful `parse_status_as_device`: the `gps_accuracy`
field is the `int(...)-or-100` conversion of the value read from `HDOP`
with default `1`. -/
theorem parse_status_ok_gps {cache : List (Int × PyVal)}
    {entry : List (String × PyVal)} {dev : StatusDevice}
    (hp : parse_status_as_device cache entry = .ok dev) :
    ∃ hdop, pyGet (historyOf entry) "HDOP" (.int 1) = .ok hdop ∧
      gpsAccuracyOut hdop = .ok dev.gps_accuracy := by
  simp only [parse_status_as_device, Bind.bind, exceptBind_ok, exceptBindRaw_ok,
    exceptPure_eq, Except.ok.injEq] at hp
  obtain ⟨idv, h1, name, h2, latV, h3, lat, h4, lonV, h5, lon, h6, timeV, h7,
    ls, h7a, chargeV, h8, batt, h9, hdop, h10, satV, h11, sigV, h12, speedV, h13,
    originV, h14, addr, h15, label, h16, gps, h17, speed, h18, sats, h19,
    sig, h20, brand, h21, model, h22, serial, h23, typeV, h24, gd, h25,
    gv, h26, gname, h27, lu, h28, s1, h29, s2, h30, s3, h31, s4, h32,
    s5, h33, s6, h34, s7, h35, s8, h36, hrec⟩ := hp
  subst hrec
  exact ⟨hdop, h10, h17⟩

/-- A status record whose History block carries no `HDOP` field. -/
def c5Entry : List (String × PyVal) :=
  [("Asset", PyVal.dict [("id", PyVal.int 12345)]),
   ("History", PyVal.dict [("latitude", PyVal.int 52), ("longitude", PyVal.int 4)])]

/-- Claim C5 counterexample: with `HDOP` absent, `parse_status_as_device`
yields `gps_accuracy = 1` (the read default `1` is truthy and passes
through `int(...)`), not the claimed default `100`. -/
theorem gps_accuracy_absent_counterexample :
    (parse_status_as_device [] c5Entry).map StatusDevice.gps_accuracy ≠
      Except.ok (100 : Int) ∧
    (parse_status_as_device [] c5Entry).map StatusDevice.gps_accuracy =
      Except.ok (1 : Int) := by
  refine ⟨fun h => ?_, rfl⟩
  have h1 : (Except.ok (1 : Int) : Except PyErr Int) = Except.ok (100 : Int) :=
    (show (parse_status_as_device [] c5Entry).map StatusDevice.gps_accuracy =
      Except.ok (1 : Int) from rfl).symm.trans h
  injection h1 with h2
  exact absurd h2 (by decide)

/-- Amended C5: on every successfully parsed status record, an absent
`HDOP` yields `gps_accuracy = 1` (the source default), while a present but
falsy `HDOP` yields the fallback `100`; the literal falsy source value is
never passed through. -/
theorem gps_accuracy_defaults (cache : List (Int × PyVal))
    (entry : List (String × PyVal)) (dev : StatusDevice)
    (h : List (String × PyVal))
    (hp : parse_status_as_device cache entry = .ok dev)
    (hh : historyOf entry = PyVal.dict h) :
    (dictLookup h "HDOP" = Option.none → dev.gps_accuracy = 1) ∧
    (∀ v, dictLookup h "HDOP" = some v → truthy v = false → dev.gps_accuracy = 100) := by
  obtain ⟨hdop, hget, hout⟩ := parse_status_ok_gps hp
  rw [hh] at hget
  simp only [pyGet, Except.ok.injEq] at hget
  constructor
  · intro habs
    rw [habs] at hget
    simp only [Option.getD_none] at hget
    rw [← hget] at hout
    simp only [gpsAccuracyOut, truthy] at hout
    norm_num at hout
    injection hout with h2
    exact h2.symm
  · intro v hv hfalsy
    rw [hv] at hget
    simp only [Option.getD_some] at hget
    rw [← hget] at hout
    simp only [gpsAccuracyOut, hfalsy, Bool.false_eq_true, if_false,
      exceptPure_eq] at hout
    injection hout with h2
    exact h2.symm

/-- Witness for C5's amended defaults at concrete records. -/
theorem gps_accuracy_defaults_witness :
    ∃ dev, parse_status_as_device [] c5Entry = .ok dev ∧ dev.gps_accuracy = 1 := by
  have hsome : ∃ dev, parse_status_as_device [] c5Entry = .ok dev := by
    cases hq : parse_status_as_device [] c5Entry with
    | error e =>
      have hok : (parse_status_as_device [] c5Entry).isOk = true := rfl
      rw [hq] at hok
      exact absurd hok (by simp [Except.isOk, Except.toBool])
    | ok dev => exact ⟨dev, rfl⟩
  obtain ⟨dev, hdev⟩ := hsome
  exact ⟨dev, hdev, (gps_accuracy_defaults [] c5Entry dev
    [("latitude", PyVal.int 52), ("longitude", PyVal.int 4)] hdev rfl).1 rfl⟩

/-! ## C2: exception behaviour of the normalizers -/

end Loca
